import Mathlib

/-!
Shallow embedding of `build_and_install.py` from the delta-optimizer
repository: an interactive build/install/upload menu.  External commands
are modelled by an environment function from command strings to outcomes;
the filesystem is a set of file paths, directory paths, and written zip
archives; printing and external-command invocation are recorded as traces
in an explicit state threaded through every operation.
-/

namespace BuildScript

/-- Outcome of one external command (`subprocess.run` with
`capture_output=True`): whether it exited with status zero, and the
captured stdout/stderr text. -/
structure CmdOutcome where
  exitZero : Bool
  stdout : String
  stderr : String
  deriving Repr, DecidableEq

/-- Behaviour of the external world: what each shell command does. -/
abbrev Env := String → CmdOutcome

/-- A Python value as returned by the menu operations: `None`,
a boolean, or a string. -/
inductive PyVal where
  | none
  | bool (b : Bool)
  | str (s : String)
  deriving Repr, DecidableEq

/-- Python truthiness of the values that appear in this program. -/
def PyVal.truthy : PyVal → Bool
  | PyVal.none => false
  | PyVal.bool b => b
  | PyVal.str s => !s.isEmpty

/-- Filesystem state: existing file paths, existing directory paths, and
the zip archives written so far (name together with the entries written,
most recent first). -/
structure FS where
  files : List String
  dirs : List String
  archives : List (String × List String)
  deriving Repr, DecidableEq

/-- `os.path.exists`. -/
def FS.pathExists (fs : FS) (p : String) : Bool :=
  fs.files.contains p || fs.dirs.contains p

/-- `shutil.rmtree` applied to a directory: removes the path and
everything below it.  The raising behaviour of `shutil.rmtree` on a
regular-file argument is modelled separately by `cleanStepE`. -/
def rmtree (fs : FS) (d : String) : FS :=
  { fs with
    files := fs.files.filter (fun f => !(f == d || f.startsWith (d ++ "/"))),
    dirs := fs.dirs.filter (fun p => !(p == d || p.startsWith (d ++ "/"))) }

/-- Program state: the filesystem, the lines printed so far, and the
external commands invoked so far (in order). -/
structure St where
  fs : FS
  output : List String
  invoked : List String
  deriving Repr, DecidableEq

/-- `print(line)`. -/
def St.print (s : St) (line : String) : St :=
  { s with output := s.output ++ [line] }

/-- Python `str.lower()`: lowercase every character. -/
def pyLower (s : String) : String :=
  String.mk (s.data.map Char.toLower)

/-- Python `str.strip()`: drop leading and trailing whitespace. -/
def pyStrip (s : String) : String :=
  String.mk (((s.data.dropWhile Char.isWhitespace).reverse.dropWhile Char.isWhitespace).reverse)

/-- `run_command(command, description)`: print a start line, run the
command capturing output, then either print a success line and return
`True`, or print the captured stderr and return `False`. -/
def run_command (env : Env) (command description : String) (s : St) : Bool × St :=
  let s1 := s.print ("🚀 " ++ description ++ "...")
  let s2 := { s1 with invoked := s1.invoked ++ [command] }
  let r := env command
  if r.exitZero then
    (true, s2.print ("✅ " ++ description ++ " completed successfully"))
  else
    (false, (s2.print ("❌ " ++ description ++ " failed:")).print ("Error: " ++ r.stderr))

/-- The directories removed by `clean_build_files`. -/
def build_dirs : List String :=
  ["build", "dist", "delta_optimizer.egg-info"]

/-- One iteration of the loop body of `clean_build_files`, on states
where the existing build paths are directories (the non-raising case). -/
def cleanStep (s : St) (d : String) : St :=
  if s.fs.pathExists d then
    ({ s with fs := rmtree s.fs d }).print ("🧹 Removed " ++ d ++ "/")
  else s

/-- `clean_build_files()`: remove each build directory that exists.  The
Python function has no `return` statement, so its value is `None`. -/
def clean_build_files (s : St) : PyVal × St :=
  (PyVal.none, build_dirs.foldl cleanStep s)

/-- One iteration of the loop body of `clean_build_files` with the error
path of `shutil.rmtree` modelled: when the existing path is not a
directory (it is a regular file), `shutil.rmtree` raises
`NotADirectoryError`, modelled as `none`. -/
def cleanStepE (s : St) (d : String) : Option St :=
  if s.fs.pathExists d then
    if s.fs.dirs.contains d then
      some (({ s with fs := rmtree s.fs d }).print ("🧹 Removed " ++ d ++ "/"))
    else none
  else some s

/-- `clean_build_files()` with the error path modelled: the function has
no `try`/`except`, so a `NotADirectoryError` raised by `shutil.rmtree`
on any of the three paths propagates out (`none`); otherwise the value
is `None` as before. -/
def clean_build_filesE (s : St) : Option (PyVal × St) :=
  match cleanStepE s ("build") with
  | none => none
  | some s1 =>
    match cleanStepE s1 ("dist") with
    | none => none
    | some s2 =>
      match cleanStepE s2 ("delta_optimizer.egg-info") with
      | none => none
      | some s3 => some (PyVal.none, s3)

/-- Run a list of commands with the given description, stopping at the
first failure (the `for`/`return False` pattern of the source). -/
def runAll (env : Env) (cmds : List String) (description : String) (s : St) : Bool × St :=
  match cmds with
  | [] => (true, s)
  | cmd :: rest =>
    match run_command env cmd description s with
    | (true, s1) => runAll env rest description s1
    | (false, s1) => (false, s1)

/-- The two build commands of `build_package`. -/
def build_commands : List String :=
  ["python setup.py sdist bdist_wheel", "python -m build"]

/-- `build_package()`. -/
def build_package (env : Env) (s : St) : PyVal × St :=
  let r := runAll env build_commands ("Building package") s
  (PyVal.bool r.1, r.2)

/-- `install_locally()`. -/
def install_locally (env : Env) (s : St) : PyVal × St :=
  let r := run_command env ("pip install .") ("Installing package locally") s
  (PyVal.bool r.1, r.2)

/-- The three validation commands of `run_tests`. -/
def validation_tests : List String :=
  ["python -c \"import delta_optimizer; print(\x27✅ Import successful\x27)\"",
   "python -c \"from delta_optimizer import DeltaOptimizer; print(\x27✅ DeltaOptimizer import successful\x27)\"",
   "python examples/quick_start.py --dry-run"]

/-- `run_tests()`. -/
def run_tests (env : Env) (s : St) : PyVal × St :=
  let r := runAll env validation_tests ("Running validation test") s
  (PyVal.bool r.1, r.2)

/-- `upload_to_pypi()`: print the notes, read the confirmation answer
(`response`), cancel unless its lowercasing is `y`, otherwise run twine. -/
def upload_to_pypi (env : Env) (response : String) (s : St) : PyVal × St :=
  let s1 := ((((s.print ("📤 Uploading to PyPI...")).print
      ("Note: Make sure you have:")).print
      ("1. twine installed: pip install twine")).print
      ("2. PyPI credentials in ~/.pypirc")).print
      ("3. Package version updated in setup.py")
  if pyLower response ≠ "y" then
    (PyVal.bool false, s1.print ("Upload cancelled"))
  else
    let r := run_command env ("twine upload dist/*") ("Uploading to PyPI") s1
    (PyVal.bool r.1, r.2)

/-- A calendar date, for `datetime.now()`. -/
structure Date where
  year : Nat
  month : Nat
  day : Nat
  deriving Repr, DecidableEq

/-- Two-digit zero-padded decimal rendering (strftime `%m` / `%d`). -/
def twoDigits (n : Nat) : String :=
  String.mk [Nat.digitChar (n / 10 % 10), Nat.digitChar (n % 10)]

/-- Four-digit zero-padded decimal rendering (strftime `%Y` for years
below 10000). -/
def fourDigits (n : Nat) : String :=
  String.mk [Nat.digitChar (n / 1000 % 10), Nat.digitChar (n / 100 % 10),
    Nat.digitChar (n / 10 % 10), Nat.digitChar (n % 10)]

/-- `datetime.now().strftime(%Y%m%d)`. -/
def Date.ymd (d : Date) : String :=
  fourDigits d.year ++ twoDigits d.month ++ twoDigits d.day

/-- The fixed path list of `create_zip_package`. -/
def files_to_include : List String :=
  ["delta_optimizer/", "examples/", "setup.py", "requirements.txt",
   "README.md", "LICENSE", "build_and_install.py"]

/-- The files found below a directory item by `os.walk`. -/
def filesUnder (fs : FS) (item : String) : List String :=
  fs.files.filter (fun f => f.startsWith item)

/-- The archive entries contributed by one listed item: nothing when the
path does not exist, the files below it when it is a directory, the file
itself otherwise. -/
def zipEntries (fs : FS) (item : String) : List String :=
  if fs.pathExists item then
    if fs.dirs.contains item then filesUnder fs item else [item]
  else []

/-- All entries written into the archive, in the order of the item list. -/
def zipContents (fs : FS) : List String :=
  files_to_include.foldr (fun item acc => zipEntries fs item ++ acc) []

/-- The archive filename built from the current date. -/
def zipFilename (today : Date) : String :=
  "delta-optimizer-" ++ today.ymd ++ ".zip"

/-- Opening `zipfile.ZipFile(name, w)` creates the file on disk if it is
not already present. -/
def FS.addFile (fs : FS) (p : String) : FS :=
  if fs.files.contains p then fs else { fs with files := fs.files ++ [p] }

/-- `create_zip_package()`: build the dated filename, write the archive
with the entries of every listed path that exists, and return the
filename (a string, not a boolean). -/
def create_zip_package (today : Date) (s : St) : PyVal × St :=
  let name := zipFilename today
  let s1 := s.print ("📦 Creating " ++ name ++ "...")
  let contents := zipContents s1.fs
  let fsA := s1.fs.addFile name
  let fs2 := { fsA with archives := (name, contents) :: fsA.archives }
  let s2 := { s1 with fs := fs2 }
  (PyVal.str name, s2.print ("✅ Created " ++ name))

/-- The option-7 lambda: `clean_build_files() and build_package() and
install_locally() and run_tests()`, with Python `and` semantics (the
left value is returned unchanged when it is falsy). -/
def full_pipeline (env : Env) (s : St) : PyVal × St :=
  let r1 := clean_build_files s
  if r1.1.truthy then
    let r2 := build_package env r1.2
    if r2.1.truthy then
      let r3 := install_locally env r2.2
      if r3.1.truthy then run_tests env r3.2 else r3
    else r2
  else r1

/-- The operation bound to a menu key. -/
inductive OpTag where
  | clean
  | build
  | install
  | test
  | zipPkg
  | upload
  | pipeline
  | exitProg
  deriving Repr, DecidableEq

/-- One registered menu entry: key, label, operation. -/
abbrev MenuEntry := String × String × OpTag

/-- Inputs the operations consume: the behaviour of external commands,
the answer typed at the upload confirmation prompt, and the current
date. -/
structure Ctx where
  env : Env
  uploadResponse : String
  today : Date

/-- Outcome of invoking one menu operation: a returned Python value, or
process termination (`sys.exit` raising `SystemExit`). -/
inductive OpOutcome where
  | val (v : PyVal)
  | exited
  deriving Repr, DecidableEq

/-- Whether an operation outcome is a returned boolean. -/
def OpOutcome.isBool : OpOutcome → Bool
  | OpOutcome.val (PyVal.bool _) => true
  | _ => false

/-- Invoke the operation bound to a tag. -/
def applyOp : OpTag → Ctx → St → OpOutcome × St
  | OpTag.clean, _, s =>
    let r := clean_build_files s
    (OpOutcome.val r.1, r.2)
  | OpTag.build, ctx, s =>
    let r := build_package ctx.env s
    (OpOutcome.val r.1, r.2)
  | OpTag.install, ctx, s =>
    let r := install_locally ctx.env s
    (OpOutcome.val r.1, r.2)
  | OpTag.test, ctx, s =>
    let r := run_tests ctx.env s
    (OpOutcome.val r.1, r.2)
  | OpTag.zipPkg, ctx, s =>
    let r := create_zip_package ctx.today s
    (OpOutcome.val r.1, r.2)
  | OpTag.upload, ctx, s =>
    let r := upload_to_pypi ctx.env ctx.uploadResponse s
    (OpOutcome.val r.1, r.2)
  | OpTag.pipeline, ctx, s =>
    let r := full_pipeline ctx.env s
    (OpOutcome.val r.1, r.2)
  | OpTag.exitProg, _, s => (OpOutcome.exited, s)

/-- The menu mapping built once at the top of `main`, in registration
order. -/
def options : List MenuEntry :=
  [("1", "Clean build files", OpTag.clean),
   ("2", "Build package", OpTag.build),
   ("3", "Install locally", OpTag.install),
   ("4", "Run tests", OpTag.test),
   ("5", "Create ZIP package", OpTag.zipPkg),
   ("6", "Upload to PyPI", OpTag.upload),
   ("7", "Full pipeline (clean+build+install+test)", OpTag.pipeline),
   ("8", "Exit", OpTag.exitProg)]

/-- The lines printed when the menu is displayed, one per registered
entry, in iteration order of the mapping. -/
def menuLines (opts : List MenuEntry) : List String :=
  "\n📋 Available options:" :: opts.map (fun e => "  " ++ e.1 ++ ". " ++ e.2.1)

/-- Display the menu. -/
def displayMenu (opts : List MenuEntry) (s : St) : St :=
  { s with output := s.output ++ menuLines opts }

/-- What the dispatch loop does after one operation finishes: an
operation that returned a value continues the loop with the same
mapping; `sys.exit` terminates the process. -/
inductive StepResult where
  | continueLoop (opts : List MenuEntry)
  | exited
  deriving Repr, DecidableEq

/-- Convert an operation outcome into the loop continuation. -/
def outcomeToStep (opts : List MenuEntry) (o : OpOutcome) : StepResult :=
  match o with
  | OpOutcome.val _ => StepResult.continueLoop opts
  | OpOutcome.exited => StepResult.exited

/-- One iteration of the `while True` loop of `main`: display the menu,
strip the raw input, dispatch on the chosen key; unknown keys print the
invalid-option message and loop again. -/
def menuStep (opts : List MenuEntry) (ctx : Ctx) (rawInput : String) (s : St) :
    StepResult × St :=
  let s1 := displayMenu opts s
  let choice := pyStrip rawInput
  match opts.find? (fun e => e.1 == choice) with
  | some e =>
    let s2 := ((s1.print ("\n==============================")).print
        ("Running: " ++ e.2.1)).print ("==============================")
    let r := applyOp e.2.2 ctx s2
    (outcomeToStep opts r.1, r.2)
  | none => (StepResult.continueLoop opts, s1.print ("❌ Invalid option. Please choose 1-8."))

/-! ## Helper lemmas -/

lemma cleanStep_invoked (s : St) (d : String) : (cleanStep s d).invoked = s.invoked := by
  unfold cleanStep
  split <;> rfl

lemma clean_build_files_invoked (s : St) : (clean_build_files s).2.invoked = s.invoked := by
  show (cleanStep (cleanStep (cleanStep s ("build")) ("dist"))
      ("delta_optimizer.egg-info")).invoked = s.invoked
  rw [cleanStep_invoked, cleanStep_invoked, cleanStep_invoked]

lemma run_command_invoked (env : Env) (c d : String) (s : St) :
    (run_command env c d s).2.invoked = s.invoked ++ [c] := by
  cases h : (env c).exitZero <;> simp [run_command, St.print, h]

/-! ## Claims -/

/-- Claim C1: contrary to the claimed clean-then-build-then-install-then-test
sequencing, the full-pipeline entry stops right after clean on every input:
`clean_build_files` returns `None`, which is falsy, so the `and` chain
short-circuits, the pipeline's value is `None`, and no external command is
ever invoked — build, install and test do not run even when every command
would succeed. -/
theorem pipeline_stops_after_clean (env : Env) (s : St) :
    full_pipeline env s = (PyVal.none, (clean_build_files s).2) ∧
    (full_pipeline env s).2.invoked = s.invoked := by
  refine ⟨rfl, ?_⟩
  show (clean_build_files s).2.invoked = s.invoked
  exact clean_build_files_invoked s

/-- Claim C3: `run_command` returns `True` exactly when the invoked command
exits zero; it records the invocation, leaves the filesystem alone, and
prints a success line on success, or the failure line followed by the
captured stderr text on non-zero exit. -/
theorem run_command_reports (env : Env) (c d : String) (s : St) :
    (run_command env c d s).1 = (env c).exitZero ∧
    (run_command env c d s).2.invoked = s.invoked ++ [c] ∧
    (run_command env c d s).2.fs = s.fs ∧
    (run_command env c d s).2.output =
      s.output ++ ["🚀 " ++ d ++ "..."] ++
        (if (env c).exitZero then ["✅ " ++ d ++ " completed successfully"]
         else ["❌ " ++ d ++ " failed:", "Error: " ++ (env c).stderr]) := by
  cases h : (env c).exitZero <;>
    refine ⟨?_, ?_, ?_, ?_⟩ <;>
      simp [run_command, St.print, h, List.append_assoc]

/-- Claim C5: when the confirmation answer does not lowercase to `y`, the
upload operation returns `False` and the twine command is never invoked. -/
theorem upload_declined (env : Env) (resp : String) (s : St)
    (h : pyLower resp ≠ "y") :
    (upload_to_pypi env resp s).1 = PyVal.bool false ∧
    (upload_to_pypi env resp s).2.invoked = s.invoked := by
  simp only [upload_to_pypi]
  rw [if_pos h]
  exact ⟨rfl, rfl⟩

/-- Witness for C5 at the concrete answer `n`. -/
theorem upload_declined_witness :
    pyLower ("n") ≠ "y" ∧
    (upload_to_pypi (fun _ => ⟨true, "", ""⟩) ("n") ⟨⟨[], [], []⟩, [], []⟩).1 =
      PyVal.bool false := by
  have h : pyLower ("n") ≠ "y" := by decide
  exact ⟨h, (upload_declined (fun _ => ⟨true, "", ""⟩) ("n") ⟨⟨[], [], []⟩, [], []⟩ h).1⟩

/-- Claim C9: the upload confirmation is case-insensitive on `y`: the twine
command is invoked exactly when the answer's lowercasing is `y`, so both
`y` and `Y` trigger the upload while an answer with surrounding whitespace
(such as a space before `y`) or any other answer cancels it. -/
theorem upload_confirmation_case_insensitive (env : Env) (resp : String) (s : St) :
    (upload_to_pypi env resp s).2.invoked =
      (if pyLower resp = "y" then s.invoked ++ ["twine upload dist/*"] else s.invoked) ∧
    (upload_to_pypi env ("Y") s).2.invoked = s.invoked ++ ["twine upload dist/*"] ∧
    (upload_to_pypi env ("y") s).2.invoked = s.invoked ++ ["twine upload dist/*"] ∧
    (upload_to_pypi env (" y") s).2.invoked = s.invoked := by
  refine ⟨?_, ?_, ?_, ?_⟩
  · by_cases h : pyLower resp = "y"
    · rw [if_pos h]
      simp only [upload_to_pypi]
      rw [if_neg (not_not_intro h)]
      simp [run_command_invoked, St.print]
    · rw [if_neg h]
      simp only [upload_to_pypi]
      rw [if_pos h]
      rfl
  · simp only [upload_to_pypi]
    rw [if_neg (not_not_intro (by decide : pyLower ("Y") = "y"))]
    simp [run_command_invoked, St.print]
  · simp only [upload_to_pypi]
    rw [if_neg (not_not_intro (by decide : pyLower ("y") = "y"))]
    simp [run_command_invoked, St.print]
  · simp only [upload_to_pypi]
    rw [if_pos (by decide : pyLower (" y") ≠ "y")]
    rfl

lemma pathExists_rmtree_self (fs : FS) (d : String) :
    (rmtree fs d).pathExists d = false := by
  simp [rmtree, FS.pathExists]

lemma pathExists_rmtree_mono (fs : FS) (d p : String) (h : fs.pathExists p = false) :
    (rmtree fs d).pathExists p = false := by
  simp_all [FS.pathExists, rmtree]

lemma cleanStep_pathExists_mono (s : St) (d p : String) (h : s.fs.pathExists p = false) :
    (cleanStep s d).fs.pathExists p = false := by
  unfold cleanStep
  split
  · exact pathExists_rmtree_mono _ _ _ h
  · exact h

lemma cleanStep_pathExists_self (s : St) (d : String) :
    (cleanStep s d).fs.pathExists d = false := by
  unfold cleanStep
  split
  · exact pathExists_rmtree_self _ _
  · next h => simpa using h

lemma cleanStep_files_contains (s : St) (x d : String)
    (h : s.fs.files.contains d = false) :
    (cleanStep s x).fs.files.contains d = false := by
  unfold cleanStep
  split
  · simp_all [St.print, rmtree]
  · exact h

lemma cleanStepE_eq_cleanStep (s : St) (d : String)
    (h : s.fs.files.contains d = false) :
    cleanStepE s d = some (cleanStep s d) := by
  unfold cleanStepE cleanStep
  by_cases hex : s.fs.pathExists d = true
  · have hdir : s.fs.dirs.contains d = true := by
      unfold FS.pathExists at hex
      rw [h] at hex
      simpa using hex
    simp [hex, hdir]
    exact List.mem_of_elem_eq_true hdir
  · simp [hex]

lemma cleanStepE_noop (s : St) (d : String) (h : s.fs.pathExists d = false) :
    cleanStepE s d = some s := by
  have h2 : ¬(s.fs.pathExists d = true) := by simp [h]
  unfold cleanStepE
  rw [if_neg h2]

lemma clean_build_filesE_eq (s : St)
    (h : ∀ d ∈ build_dirs, s.fs.files.contains d = false) :
    clean_build_filesE s = some (PyVal.none, (clean_build_files s).2) := by
  have hb := h ("build") (by decide)
  have hd := h ("dist") (by decide)
  have he := h ("delta_optimizer.egg-info") (by decide)
  have e1 : cleanStepE s ("build") = some (cleanStep s ("build")) :=
    cleanStepE_eq_cleanStep _ _ hb
  have e2 : cleanStepE (cleanStep s ("build")) ("dist") =
      some (cleanStep (cleanStep s ("build")) ("dist")) :=
    cleanStepE_eq_cleanStep _ _ (cleanStep_files_contains _ _ _ hd)
  have e3 : cleanStepE (cleanStep (cleanStep s ("build")) ("dist"))
        ("delta_optimizer.egg-info") =
      some (cleanStep (cleanStep (cleanStep s ("build")) ("dist"))
        ("delta_optimizer.egg-info")) :=
    cleanStepE_eq_cleanStep _ _
      (cleanStep_files_contains _ _ _ (cleanStep_files_contains _ _ _ he))
  simp only [clean_build_filesE, e1, e2, e3]
  rfl

/-- Claim C6 counterexample: on the concrete starting state where the path
`build` exists as a regular file, the very first clean run raises
`NotADirectoryError` out of `clean_build_files` — `shutil.rmtree` refuses
a non-directory argument and the function has no handler — so the claim
that clean runs twice without error from every starting filesystem state
is false. -/
theorem clean_raises_on_regular_build_file :
    clean_build_filesE ⟨⟨["build"], [], []⟩, [], []⟩ = none := rfl

/-- Claim C6 (amended): on every starting filesystem state in which none
of the three build paths exists as a regular file, clean is idempotent
and error-free: the first run succeeds without error, and an immediately
following second run succeeds without error, finds nothing to delete,
prints nothing, and returns the state of the first run unchanged. -/
theorem clean_idempotent_without_regular_files (s : St)
    (h : ∀ d ∈ build_dirs, s.fs.files.contains d = false) :
    clean_build_filesE s = some (PyVal.none, (clean_build_files s).2) ∧
    clean_build_filesE ((clean_build_files s).2) =
      some (PyVal.none, (clean_build_files s).2) := by
  refine ⟨clean_build_filesE_eq s h, ?_⟩
  have hb : (clean_build_files s).2.fs.pathExists ("build") = false := by
    show (cleanStep (cleanStep (cleanStep s ("build")) ("dist"))
        ("delta_optimizer.egg-info")).fs.pathExists ("build") = false
    exact cleanStep_pathExists_mono _ _ _
      (cleanStep_pathExists_mono _ _ _ (cleanStep_pathExists_self _ _))
  have hd : (clean_build_files s).2.fs.pathExists ("dist") = false := by
    show (cleanStep (cleanStep (cleanStep s ("build")) ("dist"))
        ("delta_optimizer.egg-info")).fs.pathExists ("dist") = false
    exact cleanStep_pathExists_mono _ _ _ (cleanStep_pathExists_self _ _)
  have he : (clean_build_files s).2.fs.pathExists ("delta_optimizer.egg-info") = false := by
    show (cleanStep (cleanStep (cleanStep s ("build")) ("dist"))
        ("delta_optimizer.egg-info")).fs.pathExists ("delta_optimizer.egg-info") = false
    exact cleanStep_pathExists_self _ _
  have e1 : cleanStepE ((clean_build_files s).2) ("build") =
      some ((clean_build_files s).2) := cleanStepE_noop _ _ hb
  have e2 : cleanStepE ((clean_build_files s).2) ("dist") =
      some ((clean_build_files s).2) := cleanStepE_noop _ _ hd
  have e3 : cleanStepE ((clean_build_files s).2) ("delta_optimizer.egg-info") =
      some ((clean_build_files s).2) := cleanStepE_noop _ _ he
  simp only [clean_build_filesE, e1, e2, e3]

/-- Witness for C6 on a concrete state where `build` and `dist` exist as
directories and no build path is a regular file. -/
theorem clean_idempotent_without_regular_files_witness :
    (∀ d ∈ build_dirs,
      (⟨⟨[], ["build", "dist"], []⟩, [], []⟩ : St).fs.files.contains d = false) ∧
    clean_build_filesE ((clean_build_files ⟨⟨[], ["build", "dist"], []⟩, [], []⟩).2) =
      some (PyVal.none, (clean_build_files ⟨⟨[], ["build", "dist"], []⟩, [], []⟩).2) := by
  have h : ∀ d ∈ build_dirs,
      (⟨⟨[], ["build", "dist"], []⟩, [], []⟩ : St).fs.files.contains d = false := by decide
  exact ⟨h, (clean_idempotent_without_regular_files _ h).2⟩

/-- Claim C2 counterexample: invoking the registered clean operation
(menu key 1) on a concrete state yields `None`, not a boolean success
indicator, so not every registered operation returns a boolean. -/
theorem clean_operation_result_not_boolean :
    (applyOp OpTag.clean ⟨fun _ => ⟨true, "", ""⟩, "n", ⟨2026, 10, 12⟩⟩
        ⟨⟨[], [], []⟩, [], []⟩).1.isBool = false := rfl

/-- Claim C2 (amended): on every input, build, install, test and upload
return a boolean and never escape with an exception; but clean returns
`None`, the full-pipeline entry returns clean's `None`, the zip operation
returns the archive filename string, and the exit entry terminates the
process through `SystemExit` instead of returning. -/
theorem menu_operation_result_kinds (ctx : Ctx) (s : St) :
    (applyOp OpTag.build ctx s).1.isBool = true ∧
    (applyOp OpTag.install ctx s).1.isBool = true ∧
    (applyOp OpTag.test ctx s).1.isBool = true ∧
    (applyOp OpTag.upload ctx s).1.isBool = true ∧
    (applyOp OpTag.clean ctx s).1 = OpOutcome.val PyVal.none ∧
    (applyOp OpTag.pipeline ctx s).1 = OpOutcome.val PyVal.none ∧
    (applyOp OpTag.zipPkg ctx s).1 = OpOutcome.val (PyVal.str (zipFilename ctx.today)) ∧
    (applyOp OpTag.exitProg ctx s).1 = OpOutcome.exited := by
  refine ⟨rfl, rfl, rfl, ?_, rfl, rfl, rfl, rfl⟩
  simp only [applyOp, upload_to_pypi]
  split <;> rfl

lemma menuStep_find_none (opts : List MenuEntry) (ctx : Ctx) (raw : String) (s : St)
    (hfind : opts.find? (fun e => e.1 == pyStrip raw) = none) :
    menuStep opts ctx raw s =
      (StepResult.continueLoop opts,
        (displayMenu opts s).print ("❌ Invalid option. Please choose 1-8.")) := by
  simp only [menuStep]
  rw [hfind]

lemma menuStep_find_some (opts : List MenuEntry) (ctx : Ctx) (raw : String) (s : St)
    (e : MenuEntry) (hfind : opts.find? (fun x => x.1 == pyStrip raw) = some e) :
    menuStep opts ctx raw s =
      (outcomeToStep opts
          (applyOp e.2.2 ctx
            ((((displayMenu opts s).print ("\n==============================")).print
              ("Running: " ++ e.2.1)).print ("=============================="))).1,
        (applyOp e.2.2 ctx
            ((((displayMenu opts s).print ("\n==============================")).print
              ("Running: " ++ e.2.1)).print ("=============================="))).2) := by
  simp only [menuStep]
  rw [hfind]

lemma outcomeToStep_cases (opts : List MenuEntry) (o : OpOutcome) :
    outcomeToStep opts o = StepResult.exited ∨
      outcomeToStep opts o = StepResult.continueLoop opts := by
  cases o <;> simp [outcomeToStep]

/-- Claim C4: on any input whose stripped form is not a registered key, one
loop iteration prints the invalid-option message, leaves the filesystem and
the invocation trace untouched (so no operation runs), and continues the
loop with the unchanged mapping. -/
theorem invalid_choice_keeps_looping (ctx : Ctx) (raw : String) (s : St)
    (h : pyStrip raw ∉ options.map (fun e => e.1)) :
    (menuStep options ctx raw s).1 = StepResult.continueLoop options ∧
    (menuStep options ctx raw s).2.fs = s.fs ∧
    (menuStep options ctx raw s).2.invoked = s.invoked ∧
    (menuStep options ctx raw s).2.output =
      s.output ++ menuLines options ++ ["❌ Invalid option. Please choose 1-8."] := by
  have hfind : options.find? (fun e => e.1 == pyStrip raw) = none := by
    rw [List.find?_eq_none]
    intro e he hbeq
    exact h (List.mem_map.mpr ⟨e, he, by simpa using hbeq⟩)
  rw [menuStep_find_none options ctx raw s hfind]
  exact ⟨rfl, rfl, rfl, rfl⟩

/-- Witness for C4 at the concrete input `9`. -/
theorem invalid_choice_keeps_looping_witness :
    pyStrip ("9") ∉ options.map (fun e => e.1) ∧
    (menuStep options ⟨fun _ => ⟨true, "", ""⟩, "n", ⟨2026, 10, 12⟩⟩ ("9")
        ⟨⟨[], [], []⟩, [], []⟩).1 = StepResult.continueLoop options := by
  have h : pyStrip ("9") ∉ options.map (fun e => e.1) := by decide
  exact ⟨h, (invalid_choice_keeps_looping ⟨fun _ => ⟨true, "", ""⟩, "n", ⟨2026, 10, 12⟩⟩
    ("9") ⟨⟨[], [], []⟩, [], []⟩ h).1⟩

/-- Claim C8: the menu mapping lists exactly the keys 1 through 8 in
registration order with no duplicates, the displayed lines follow that
same order, and no loop iteration ever changes the mapping: every step
either exits the process or continues with the identical mapping. -/
theorem options_registry (ctx : Ctx) (raw : String) (s : St) :
    options.map (fun e => e.1) = ["1", "2", "3", "4", "5", "6", "7", "8"] ∧
    (options.map (fun e => e.1)).Nodup ∧
    (displayMenu options s).output =
      s.output ++ ("\n📋 Available options:" ::
        options.map (fun e => "  " ++ e.1 ++ ". " ++ e.2.1)) ∧
    ((menuStep options ctx raw s).1 = StepResult.exited ∨
      (menuStep options ctx raw s).1 = StepResult.continueLoop options) := by
  refine ⟨rfl, by decide, rfl, ?_⟩
  cases hfind : options.find? (fun e => e.1 == pyStrip raw) with
  | none =>
    rw [menuStep_find_none options ctx raw s hfind]
    right
    rfl
  | some e =>
    rw [menuStep_find_some options ctx raw s e hfind]
    exact outcomeToStep_cases options _

lemma digitChar_mod_isDigit (x : Nat) : (Nat.digitChar (x % 10)).isDigit = true := by
  have h : x % 10 < 10 := Nat.mod_lt _ (by decide)
  set m := x % 10 with hm
  interval_cases m <;> decide

lemma ymd_digits (d : Date) : (Date.ymd d).data.all Char.isDigit = true := by
  have hdata : (Date.ymd d).data =
      [Nat.digitChar (d.year / 1000 % 10), Nat.digitChar (d.year / 100 % 10),
       Nat.digitChar (d.year / 10 % 10), Nat.digitChar (d.year % 10),
       Nat.digitChar (d.month / 10 % 10), Nat.digitChar (d.month % 10),
       Nat.digitChar (d.day / 10 % 10), Nat.digitChar (d.day % 10)] := rfl
  rw [hdata]
  simp [List.all_cons, digitChar_mod_isDigit]

lemma addFile_mem (fs : FS) (p : String) : p ∈ (fs.addFile p).files := by
  unfold FS.addFile
  split
  · next h => exact List.mem_of_elem_eq_true h
  · simp

lemma addFile_archives (fs : FS) (p : String) : (fs.addFile p).archives = fs.archives := by
  unfold FS.addFile
  split <;> rfl

lemma create_zip_archives (today : Date) (s : St) :
    (create_zip_package today s).2.fs.archives =
      (zipFilename today, zipContents s.fs) :: s.fs.archives := by
  show (zipFilename today, zipContents s.fs) ::
      (FS.addFile s.fs (zipFilename today)).archives =
    (zipFilename today, zipContents s.fs) :: s.fs.archives
  rw [addFile_archives]

lemma create_zip_mem_files (today : Date) (s : St) :
    zipFilename today ∈ (create_zip_package today s).2.fs.files := by
  show zipFilename today ∈ (FS.addFile s.fs (zipFilename today)).files
  exact addFile_mem _ _

lemma zipEntries_nil (fs : FS) (item : String) (h : fs.pathExists item = false) :
    zipEntries fs item = [] := by
  have h2 : ¬(fs.pathExists item = true) := by simp [h]
  unfold zipEntries
  rw [if_neg h2]

lemma zipEntries_mem_exists (fs : FS) (item e : String) (h : e ∈ zipEntries fs item) :
    fs.pathExists item = true := by
  cases hex : fs.pathExists item with
  | true => rfl
  | false =>
    rw [zipEntries_nil fs item hex] at h
    simp at h

lemma mem_zip_fold {fs : FS} {l : List String} {e : String}
    (h : e ∈ l.foldr (fun item acc => zipEntries fs item ++ acc) []) :
    ∃ item, item ∈ l ∧ fs.pathExists item = true := by
  induction l with
  | nil => simp at h
  | cons a t ih =>
    simp only [List.foldr_cons, List.mem_append] at h
    rcases h with h | h
    · exact ⟨a, List.mem_cons_self a t, zipEntries_mem_exists _ _ _ h⟩
    · rcases ih h with ⟨i, hi, hp⟩
      exact ⟨i, List.mem_cons_of_mem a hi, hp⟩

/-- Claim C7: when the package directory and at least one of the named
files exist, the zip operation returns the dated filename, the archive
file exists on disk afterwards, and the filename embeds the current date
as exactly eight decimal digits. -/
theorem zip_creates_dated_archive (today : Date) (s : St)
    (hy : today.year < 10000) (hm : 1 ≤ today.month ∧ today.month ≤ 12)
    (hd : 1 ≤ today.day ∧ today.day ≤ 31)
    (hdir : ("delta_optimizer/" : String) ∈ s.fs.dirs)
    (hfile : ("setup.py" : String) ∈ s.fs.files ∨
      ("requirements.txt" : String) ∈ s.fs.files ∨
      ("README.md" : String) ∈ s.fs.files ∨
      ("LICENSE" : String) ∈ s.fs.files ∨
      ("build_and_install.py" : String) ∈ s.fs.files) :
    (create_zip_package today s).1 = PyVal.str (zipFilename today) ∧
    zipFilename today ∈ (create_zip_package today s).2.fs.files ∧
    zipFilename today = "delta-optimizer-" ++ Date.ymd today ++ ".zip" ∧
    (Date.ymd today).length = 8 ∧
    (Date.ymd today).data.all Char.isDigit = true :=
  ⟨rfl, create_zip_mem_files today s, rfl, rfl, ymd_digits today⟩

/-- Witness for C7 on a concrete filesystem holding the package directory
and `setup.py`, at the date 2026-10-12. -/
theorem zip_creates_dated_archive_witness :
    (create_zip_package ⟨2026, 10, 12⟩
        ⟨⟨["setup.py"], ["delta_optimizer/"], []⟩, [], []⟩).1 =
      PyVal.str (zipFilename ⟨2026, 10, 12⟩) ∧
    zipFilename ⟨2026, 10, 12⟩ ∈
      (create_zip_package ⟨2026, 10, 12⟩
        ⟨⟨["setup.py"], ["delta_optimizer/"], []⟩, [], []⟩).2.fs.files := by
  have h := zip_creates_dated_archive ⟨2026, 10, 12⟩
    ⟨⟨["setup.py"], ["delta_optimizer/"], []⟩, [], []⟩
    (by decide) (by decide) (by decide) (by decide) (Or.inl (by decide))
  exact ⟨h.1, h.2.1⟩

/-- Claim C10: the zip operation contributes entries only from listed
paths that exist, and when none of the listed paths exist it still
returns the dated filename and writes an empty archive whose file then
exists on disk — no error is reported. -/
theorem zip_skips_missing_paths (today : Date) (s s2 : St)
    (h : ∀ item ∈ files_to_include, s.fs.pathExists item = false) :
    (create_zip_package today s).1 = PyVal.str (zipFilename today) ∧
    (create_zip_package today s).2.fs.archives =
      (zipFilename today, []) :: s.fs.archives ∧
    zipFilename today ∈ (create_zip_package today s).2.fs.files ∧
    (create_zip_package today s2).2.fs.archives =
      (zipFilename today, zipContents s2.fs) :: s2.fs.archives ∧
    (∀ e ∈ zipContents s2.fs,
      ∃ item, item ∈ files_to_include ∧ s2.fs.pathExists item = true) := by
  have h1 : zipEntries s.fs ("delta_optimizer/") = [] := zipEntries_nil _ _ (h _ (by decide))
  have h2 : zipEntries s.fs ("examples/") = [] := zipEntries_nil _ _ (h _ (by decide))
  have h3 : zipEntries s.fs ("setup.py") = [] := zipEntries_nil _ _ (h _ (by decide))
  have h4 : zipEntries s.fs ("requirements.txt") = [] := zipEntries_nil _ _ (h _ (by decide))
  have h5 : zipEntries s.fs ("README.md") = [] := zipEntries_nil _ _ (h _ (by decide))
  have h6 : zipEntries s.fs ("LICENSE") = [] := zipEntries_nil _ _ (h _ (by decide))
  have h7 : zipEntries s.fs ("build_and_install.py") = [] := zipEntries_nil _ _ (h _ (by decide))
  have hz : zipContents s.fs = [] := by
    show zipEntries s.fs ("delta_optimizer/") ++ (zipEntries s.fs ("examples/") ++
      (zipEntries s.fs ("setup.py") ++ (zipEntries s.fs ("requirements.txt") ++
      (zipEntries s.fs ("README.md") ++ (zipEntries s.fs ("LICENSE") ++
      (zipEntries s.fs ("build_and_install.py") ++ [])))))) = []
    rw [h1, h2, h3, h4, h5, h6, h7]
    rfl
  refine ⟨rfl, ?_, create_zip_mem_files today s, create_zip_archives today s2, ?_⟩
  · rw [create_zip_archives, hz]
  · intro e he
    exact mem_zip_fold he

/-- Witness for C10 on the empty filesystem at the date 2026-10-12. -/
theorem zip_skips_missing_paths_witness :
    (create_zip_package ⟨2026, 10, 12⟩ ⟨⟨[], [], []⟩, [], []⟩).2.fs.archives =
      (zipFilename ⟨2026, 10, 12⟩, []) :: [] ∧
    zipFilename ⟨2026, 10, 12⟩ ∈
      (create_zip_package ⟨2026, 10, 12⟩ ⟨⟨[], [], []⟩, [], []⟩).2.fs.files := by
  have h := zip_skips_missing_paths ⟨2026, 10, 12⟩ ⟨⟨[], [], []⟩, [], []⟩
    ⟨⟨[], [], []⟩, [], []⟩ (by decide)
  exact ⟨h.2.1, h.2.2.1⟩

end BuildScript
